import Mathlib

/-
Verification of the url-shortener core (quota enforcement, subscription
state machine, usage-metered billing) against its specification.

The definitions below are a shallow embedding of the JavaScript source:

  * billing arithmetic        — src/controllers/billingController.js
    (calculateMonthlyBill / generateMonthlyInvoice, rate table RATES,
    parseFloat(x.toFixed(2)) modelled as round-half-up to cents over ℚ)
  * anonymous quota           — checkQuota / shortenUrl (urlController)
  * subscription operations   — subscriptionController.js
    (purchasePlan, switchPlan, cancelSubscription) and authController.js
    (register, registerEnterprise, activateEnterpriseAccount)
  * invoice payment           — billingController.js (markInvoicePaid)
  * redirect                  — urlController.js (redirectUrl)
  * short-code allocation     — the while(!isUnique) nanoid(6) loop
  * usage metering            — trackUrlCreation, split into its two
    storage phases (select, then update-or-insert)

Database tables are lists of rows; supabase's .single() returns a row
exactly when the filter matches exactly one row (singleRow below).
JavaScript numbers on the billing path are modelled as exact rationals;
toFixed(2) as round-half-up (all amounts here are non-negative).
-/

/-- Round-half-up to two decimal places: parseFloat(x.toFixed(2)) on the
non-negative amounts of the billing path. -/
def round2 (x : ℚ) : ℚ := ((Int.floor (x * 100 + 1 / 2) : ℤ) : ℚ) / 100

/-- One usage_tracking row as read by the billing engine: counters for the
month plus the features_used map (feature name, activation count). -/
structure UsageRecord where
  urls_created : ℕ
  files_uploaded : ℕ
  storage_used_bytes : ℕ
  features_used : List (String × ℕ)
deriving DecidableEq

/-- RATES.url = 0.10 ($ per URL). -/
def urlRate : ℚ := 1 / 10

/-- RATES.file = 0.05 ($ per file). -/
def fileRate : ℚ := 1 / 20

/-- RATES.storagePerGB = 0.01 ($ per GB). -/
def storagePerGBRate : ℚ := 1 / 100

/-- RATES.features lookup; a feature name absent from the rate map gets
rate 0 (the code's `RATES.features[feature] || 0`). -/
def featureRate (feature : String) : ℚ :=
  if feature = "chatbot" then 1 / 2
  else if feature = "screenshot" then 1 / 4
  else if feature = "interest_form" then 3 / 10
  else if feature = "download_enable" then 3 / 20
  else if feature = "follow_up" then 2 / 5
  else 0

/-- urlCharge = usage.urls_created * RATES.url. -/
def urlCharge (u : UsageRecord) : ℚ := (u.urls_created : ℚ) * urlRate

/-- fileCharge = usage.files_uploaded * RATES.file. -/
def fileCharge (u : UsageRecord) : ℚ := (u.files_uploaded : ℚ) * fileRate

/-- storageGB = usage.storage_used_bytes / (1024*1024*1024). -/
def storageGB (u : UsageRecord) : ℚ :=
  (u.storage_used_bytes : ℚ) / (1024 * 1024 * 1024)

/-- storageCharge = storageGB * RATES.storagePerGB. -/
def storageCharge (u : UsageRecord) : ℚ := storageGB u * storagePerGBRate

/-- totalFeatureCharge: the loop over Object.entries(featuresUsed) adding
count * rate for each feature (raw, unrounded). -/
def totalFeatureCharge (u : UsageRecord) : ℚ :=
  (u.features_used.map (fun p => (p.2 : ℚ) * featureRate p.1)).sum

/-- The code's `totalAmount = urlCharge + fileCharge + storageCharge +
totalFeatureCharge` — the raw, unrounded sum. -/
def totalAmount (u : UsageRecord) : ℚ :=
  urlCharge u + fileCharge u + storageCharge u + totalFeatureCharge u

/-- The amount reported by calculateMonthlyBill and persisted by
generateMonthlyInvoice: parseFloat(totalAmount.toFixed(2)) — the raw sum
rounded once at the end. -/
def invoiceAmount (u : UsageRecord) : ℚ := round2 (totalAmount u)

/-- Stated from the spec's words, for comparison with `invoiceAmount`:
"the total is the sum of already-rounded components" — each of the four
line items (urls, files, storage, features) rounded to two decimals
independently, then summed (the features item itemised per feature, as in
the breakdown object). -/
def specSumOfRoundedLineItems (u : UsageRecord) : ℚ :=
  round2 (urlCharge u) + round2 (fileCharge u) + round2 (storageCharge u) +
    (u.features_used.map (fun p => round2 ((p.2 : ℚ) * featureRate p.1))).sum

/-- A rational that is a whole number of cents. -/
def IsCents (x : ℚ) : Prop := ∃ k : ℤ, x = (k : ℚ) / 100

/-- The usage snapshot returned with a quota decision:
used / limit / remaining (remaining as computed in JS, an integer that the
code clamps to 0 on the denial branch). -/
structure QuotaUsage where
  used : ℕ
  limit : ℕ
  remaining : ℤ
deriving DecidableEq

/-- Result of checkQuota for an anonymous caller. -/
inductive QuotaDecision where
  | allowed (planId : ℕ) (usage : QuotaUsage)
  | denied (errorTag : String) (usage : QuotaUsage)
deriving DecidableEq

/-- `freePlan.url_limit || 2`: null or 0 falls back to 2. -/
def freeLimitOf : Option ℕ → ℕ
  | none => 2
  | some 0 => 2
  | some (k + 1) => k + 1

/-- The anonymous branch of checkQuota: count URLs owned by the caller's
IP (user_id null), remaining = freeLimit - count; denial with tag
quota_exceeded and remaining clamped to 0 when remaining <= 0. -/
def checkQuotaAnon (freePlanId : ℕ) (urlLimit : Option ℕ) (urlCount : ℕ) :
    QuotaDecision :=
  if (freeLimitOf urlLimit : ℤ) - (urlCount : ℤ) ≤ 0 then
    QuotaDecision.denied "quota_exceeded"
      (QuotaUsage.mk urlCount (freeLimitOf urlLimit) 0)
  else
    QuotaDecision.allowed freePlanId
      (QuotaUsage.mk urlCount (freeLimitOf urlLimit)
        ((freeLimitOf urlLimit : ℤ) - (urlCount : ℤ)))

/-- Outcome of one POST /api/shorten from an anonymous caller: 201 with
the pre-insert quota snapshot, or 403 with the denial tag and snapshot. -/
inductive ShortenOutcome where
  | created (status : ℕ) (quota : QuotaUsage)
  | forbidden (status : ℕ) (errorTag : String) (usage : QuotaUsage)
deriving DecidableEq

/-- One anonymous creation attempt: check quota against the current count
of URLs owned by the IP; on approval insert the row (count + 1) and answer
201 carrying checkQuota's snapshot; on denial answer 403 and leave the
count unchanged. -/
def shortenAnonAttempt (urlLimit : Option ℕ) (urlCount : ℕ) :
    ShortenOutcome × ℕ :=
  match checkQuotaAnon 0 urlLimit urlCount with
  | QuotaDecision.allowed _ usage =>
      (ShortenOutcome.created 201 usage, urlCount + 1)
  | QuotaDecision.denied tag usage =>
      (ShortenOutcome.forbidden 403 tag usage, urlCount)

/-- URLs owned by one fresh IP after k creation attempts. -/
def countAfterAttempts (urlLimit : Option ℕ) : ℕ → ℕ
  | 0 => 0
  | k + 1 => (shortenAnonAttempt urlLimit (countAfterAttempts urlLimit k)).2

/-- The response to the n-th (1-indexed) creation attempt from a fresh
IP. -/
def nthAttemptOutcome (urlLimit : Option ℕ) (n : ℕ) : ShortenOutcome :=
  (shortenAnonAttempt urlLimit (countAfterAttempts urlLimit (n - 1))).1

/-- users table row (columns the core reads). -/
structure UserRow where
  id : ℕ
  email : Option String
  user_type : String
  organization_name : Option String
  account_status : String
deriving DecidableEq

/-- plans table row. -/
structure PlanRow where
  id : ℕ
  name : String
  url_limit : Option ℕ
  price : ℚ
  is_active : Bool
deriving DecidableEq

/-- user_subscriptions table row. -/
structure SubscriptionRow where
  id : ℕ
  user_id : ℕ
  plan_id : ℕ
  status : String
  started_at : Option ℕ
  cancelled_at : Option ℕ
deriving DecidableEq

/-- enterprise_invoices table row. -/
structure InvoiceRow where
  id : ℕ
  user_id : ℕ
  invoice_type : String
  amount : ℚ
  status : String
  payment_date : Option ℕ
  payment_reference : Option String
  payment_method : Option String
deriving DecidableEq

/-- usage_tracking table row (counters; the features_used map is carried
separately by UsageRecord where billing needs it). -/
structure UsageRow where
  user_id : ℕ
  tracking_period : ℕ
  urls_created : ℕ
  files_uploaded : ℕ
  storage_used_bytes : ℕ
deriving DecidableEq

/-- The persistent state: the five tables the subscription and billing
controllers touch, plus a fresh-id counter for inserted rows. -/
structure Db where
  nextId : ℕ
  users : List UserRow
  plans : List PlanRow
  user_subscriptions : List SubscriptionRow
  enterprise_invoices : List InvoiceRow
  usage_tracking : List UsageRow
deriving DecidableEq

/-- supabase .single(): a row exactly when the filtered result has exactly
one row, null otherwise (0 rows and 2+ rows both produce an error that the
callers treat as data = null). -/
def singleRow {α : Type} : List α → Option α
  | [x] => some x
  | _ => none

/-- Rows of user_subscriptions for this user with status active — the
query every controller issues before acting. -/
def activeSubsOf (userId : ℕ) (db : Db) : List SubscriptionRow :=
  db.user_subscriptions.filter
    (fun s => s.user_id == userId && s.status == "active")

/-- Plan lookup by id among active plans — the
`.eq('id', planId).eq('is_active', true).single()` query. -/
def findPlan (db : Db) (planId : ℕ) : Option PlanRow :=
  singleRow (db.plans.filter (fun p => p.id == planId && p.is_active))

/-- Outcome of POST /api/subscriptions/purchase. -/
inductive PurchaseResult where
  | planNotFound
  | conflict
  | created (sub : SubscriptionRow)
deriving DecidableEq

/-- purchasePlan: verify the plan exists and is active (404 otherwise);
409 Conflict when the user has an active subscription; otherwise insert a
new subscription with status 'active' and started_at = now — the insert
uses status 'active' for every plan. -/
def purchasePlan (now userId planId : ℕ) (db : Db) : PurchaseResult × Db :=
  match findPlan db planId with
  | none => (PurchaseResult.planNotFound, db)
  | some _plan =>
    match singleRow (activeSubsOf userId db) with
    | some _existing => (PurchaseResult.conflict, db)
    | none =>
      let sub : SubscriptionRow :=
        SubscriptionRow.mk db.nextId userId planId "active" (some now) none
      (PurchaseResult.created sub,
        Db.mk (db.nextId + 1) db.users db.plans
          (db.user_subscriptions ++ [sub]) db.enterprise_invoices
          db.usage_tracking)

/-- Outcome of PUT /api/subscriptions/switch. -/
inductive SwitchResult where
  | planNotFound
  | noActiveSub
  | samePlan
  | switched (newSub : SubscriptionRow)
deriving DecidableEq

/-- switchPlan: require the new plan and an active subscription on a
different plan; mark the current row cancelled (recording cancelled_at)
and insert a fresh active row. -/
def switchPlan (now userId newPlanId : ℕ) (db : Db) : SwitchResult × Db :=
  match findPlan db newPlanId with
  | none => (SwitchResult.planNotFound, db)
  | some _newPlan =>
    match singleRow (activeSubsOf userId db) with
    | none => (SwitchResult.noActiveSub, db)
    | some currentSub =>
      if currentSub.plan_id == newPlanId then (SwitchResult.samePlan, db)
      else
        let subs1 := db.user_subscriptions.map (fun s =>
          if s.id == currentSub.id then
            SubscriptionRow.mk s.id s.user_id s.plan_id "cancelled"
              s.started_at (some now)
          else s)
        let newSub : SubscriptionRow :=
          SubscriptionRow.mk db.nextId userId newPlanId "active" (some now) none
        (SwitchResult.switched newSub,
          Db.mk (db.nextId + 1) db.users db.plans (subs1 ++ [newSub])
            db.enterprise_invoices db.usage_tracking)

/-- Outcome of DELETE /api/subscriptions/cancel. -/
inductive CancelResult where
  | noActiveSub
  | forbidden
  | cancelled
  | serverError
deriving DecidableEq

/-- cancelSubscription: look up the active subscription joined with its
plan; 404 when absent; 403 Forbidden unless the plan is enterprise;
otherwise set status cancelled and record cancelled_at. serverError marks
the join failing to produce a plan row (the code would throw). -/
def cancelSubscription (now userId : ℕ) (db : Db) : CancelResult × Db :=
  match singleRow (activeSubsOf userId db) with
  | none => (CancelResult.noActiveSub, db)
  | some sub =>
    match db.plans.find? (fun p => p.id == sub.plan_id) with
    | none => (CancelResult.serverError, db)
    | some plan =>
      if plan.name == "enterprise" then
        (CancelResult.cancelled,
          Db.mk db.nextId db.users db.plans
            (db.user_subscriptions.map (fun s =>
              if s.id == sub.id then
                SubscriptionRow.mk s.id s.user_id s.plan_id "cancelled"
                  s.started_at (some now)
              else s))
            db.enterprise_invoices db.usage_tracking)
      else (CancelResult.forbidden, db)

/-- Outcome of POST /api/auth/register (persistence effects; the purely
syntactic email/password validation is an excluded collaborator). -/
inductive RegisterResult where
  | conflictEmail
  | createdUser (userId : ℕ)
deriving DecidableEq

/-- register: 409 when the email is taken; insert the user (user_type
individual, account_status defaulting to pending_payment per the schema)
and, when the free plan exists, auto-assign it with an immediately
'active' subscription. -/
def register (email : String) (db : Db) : RegisterResult × Db :=
  match singleRow (db.users.filter (fun u => u.email == some email)) with
  | some _ => (RegisterResult.conflictEmail, db)
  | none =>
    let newUser : UserRow :=
      UserRow.mk db.nextId (some email) "individual" none "pending_payment"
    let db1 : Db :=
      Db.mk (db.nextId + 1) (db.users ++ [newUser]) db.plans
        db.user_subscriptions db.enterprise_invoices db.usage_tracking
    match singleRow (db1.plans.filter (fun p => p.name == "free")) with
    | some freePlan =>
      let sub : SubscriptionRow :=
        SubscriptionRow.mk db1.nextId newUser.id freePlan.id "active" none none
      (RegisterResult.createdUser newUser.id,
        Db.mk (db1.nextId + 1) db1.users db1.plans
          (db1.user_subscriptions ++ [sub]) db1.enterprise_invoices
          db1.usage_tracking)
    | none => (RegisterResult.createdUser newUser.id, db1)

/-- Outcome of POST /api/auth/register/enterprise. -/
inductive RegisterEnterpriseResult where
  | conflictOrg
  | createdEnterprise (userId : ℕ)
deriving DecidableEq

/-- registerEnterprise: 409 when the organization name is taken; insert
the user with account_status pending_payment, a $10 pending
registration_fee invoice, and (when the enterprise plan exists) a
subscription with status pending_payment. -/
def registerEnterprise (organizationName : String) (db : Db) :
    RegisterEnterpriseResult × Db :=
  match singleRow (db.users.filter
      (fun u => u.organization_name == some organizationName)) with
  | some _ => (RegisterEnterpriseResult.conflictOrg, db)
  | none =>
    let newUser : UserRow :=
      UserRow.mk db.nextId none "enterprise" (some organizationName)
        "pending_payment"
    let invoice : InvoiceRow :=
      InvoiceRow.mk (db.nextId + 1) newUser.id "registration_fee" 10
        "pending" none none none
    let db2 : Db :=
      Db.mk (db.nextId + 2) (db.users ++ [newUser]) db.plans
        db.user_subscriptions (db.enterprise_invoices ++ [invoice])
        db.usage_tracking
    match singleRow (db2.plans.filter (fun p => p.name == "enterprise")) with
    | some ePlan =>
      let sub : SubscriptionRow :=
        SubscriptionRow.mk db2.nextId newUser.id ePlan.id "pending_payment"
          none none
      (RegisterEnterpriseResult.createdEnterprise newUser.id,
        Db.mk (db2.nextId + 1) db2.users db2.plans
          (db2.user_subscriptions ++ [sub]) db2.enterprise_invoices
          db2.usage_tracking)
    | none => (RegisterEnterpriseResult.createdEnterprise newUser.id, db2)

/-- Outcome of POST /api/auth/enterprise/activate. -/
inductive ActivateResult where
  | enterpriseNotFound
  | alreadyActive
  | activated
deriving DecidableEq

/-- activateEnterpriseAccount: find the enterprise user (404 otherwise);
400 when the account is already active; otherwise flip the account to
active, mark the pending registration_fee invoice paid, promote every
subscription of the user with status pending_payment to active (setting
started_at), and seed a zero usage_tracking row for the current period.
No check is made for an already-existing active subscription. -/
def activateEnterpriseAccount (now currentPeriod userId : ℕ)
    (paymentReference : String) (db : Db) : ActivateResult × Db :=
  match singleRow (db.users.filter
      (fun u => u.id == userId && u.user_type == "enterprise")) with
  | none => (ActivateResult.enterpriseNotFound, db)
  | some user =>
    if user.account_status == "active" then (ActivateResult.alreadyActive, db)
    else
      let users1 := db.users.map (fun u =>
        if u.id == userId then
          UserRow.mk u.id u.email u.user_type u.organization_name "active"
        else u)
      let invoices1 := db.enterprise_invoices.map (fun i =>
        if i.user_id == userId && i.invoice_type == "registration_fee" &&
            i.status == "pending" then
          InvoiceRow.mk i.id i.user_id i.invoice_type i.amount "paid"
            (some now) (some paymentReference) i.payment_method
        else i)
      let subs1 := db.user_subscriptions.map (fun s =>
        if s.user_id == userId && s.status == "pending_payment" then
          SubscriptionRow.mk s.id s.user_id s.plan_id "active" (some now)
            s.cancelled_at
        else s)
      let usage1 := db.usage_tracking ++ [UsageRow.mk userId currentPeriod 0 0 0]
      (ActivateResult.activated,
        Db.mk db.nextId users1 db.plans subs1 invoices1 usage1)

/-- Outcome of POST /api/billing/invoices/:invoiceId/pay. -/
inductive PayResult where
  | missingReference
  | invoiceNotFound
  | alreadyPaid
  | paid
deriving DecidableEq

/-- The HTTP status each markInvoicePaid outcome is sent with: the
already-paid branch answers 400 Bad Request in the code. -/
def payStatusCode : PayResult → ℕ
  | PayResult.missingReference => 400
  | PayResult.invoiceNotFound => 404
  | PayResult.alreadyPaid => 400
  | PayResult.paid => 200

/-- markInvoicePaid: require a payment reference (400); find the invoice
owned by the caller (404); refuse when already paid (400 in the code);
otherwise set status paid and record payment_date, payment_reference and
payment_method (the update matches by invoice id). -/
def markInvoicePaid (now userId invoiceId : ℕ)
    (paymentReference : Option String) (paymentMethod : Option String)
    (db : Db) : PayResult × Db :=
  match paymentReference with
  | none => (PayResult.missingReference, db)
  | some ref =>
    match singleRow (db.enterprise_invoices.filter
        (fun i => i.id == invoiceId && i.user_id == userId)) with
    | none => (PayResult.invoiceNotFound, db)
    | some invoice =>
      if invoice.status == "paid" then (PayResult.alreadyPaid, db)
      else
        (PayResult.paid,
          Db.mk db.nextId db.users db.plans db.user_subscriptions
            (db.enterprise_invoices.map (fun i =>
              if i.id == invoiceId then
                InvoiceRow.mk i.id i.user_id i.invoice_type i.amount "paid"
                  (some now) (some ref) paymentMethod
              else i))
            db.usage_tracking)

/-- urls table row (columns redirectUrl reads). Times are integers
(milliseconds will do); expiry_time null means no expiry. -/
structure UrlRow where
  id : ℕ
  short_code : String
  original_url : String
  clicks : ℕ
  url_type : String
  expiry_time : Option ℤ
  is_password_protected : Bool
  password_hash : Option String
  r2_bucket : Option String
  r2_key : Option String
deriving DecidableEq

/-- url_metadata row as redirectUrl reads it (only expire_time is
consulted on this path). -/
structure MetaRow where
  url_id : ℕ
  expire_time : Option ℤ
deriving DecidableEq

/-- What GET /:shortCode answers with. -/
inductive RedirectResult where
  | notFound
  | gone (expiredAt : ℤ)
  | passwordRequired
  | invalidPassword
  | serverError
  | redirectSigned (bucket key : String)
  | redirectTo (url : String)
deriving DecidableEq

/-- Tail of redirectUrl after all expiry and password gates passed:
increment the click count, then redirect — to a signed object URL when the
row is a file with both r2 coordinates, else to the original URL. -/
def redirectFinish (urls : List UrlRow) (urlData : UrlRow) :
    RedirectResult × List UrlRow :=
  let urls1 := urls.map (fun u =>
    if u.short_code == urlData.short_code then
      UrlRow.mk u.id u.short_code u.original_url (urlData.clicks + 1)
        u.url_type u.expiry_time u.is_password_protected u.password_hash
        u.r2_bucket u.r2_key
    else u)
  if urlData.url_type == "file" then
    match urlData.r2_bucket, urlData.r2_key with
    | some bucket, some key => (RedirectResult.redirectSigned bucket key, urls1)
    | _, _ => (RedirectResult.redirectTo urlData.original_url, urls1)
  else (RedirectResult.redirectTo urlData.original_url, urls1)

/-- Password gate of redirectUrl: 401 when protected and no password was
supplied, 401 when verifyPassword rejects it; a protected row without a
stored hash makes verifyPassword throw (500). verify stands for the
pbkdf2 comparison, an excluded collaborator. -/
def redirectCheckPassword (verify : String → String → Bool)
    (urls : List UrlRow) (urlData : UrlRow) (password : Option String) :
    RedirectResult × List UrlRow :=
  if urlData.is_password_protected then
    match password with
    | none => (RedirectResult.passwordRequired, urls)
    | some pw =>
      match urlData.password_hash with
      | none => (RedirectResult.serverError, urls)
      | some storedHash =>
        if verify pw storedHash then redirectFinish urls urlData
        else (RedirectResult.invalidPassword, urls)
  else redirectFinish urls urlData

/-- Second expiry gate of redirectUrl: the url_metadata row's expire_time,
checked before the password gate. -/
def redirectAfterUrlExpiry (verify : String → String → Bool)
    (now : ℤ) (urls : List UrlRow) (metas : List MetaRow) (urlData : UrlRow)
    (password : Option String) : RedirectResult × List UrlRow :=
  match singleRow (metas.filter (fun m => m.url_id == urlData.id)) with
  | some m =>
    match m.expire_time with
    | some t =>
      if now > t then (RedirectResult.gone t, urls)
      else redirectCheckPassword verify urls urlData password
    | none => redirectCheckPassword verify urls urlData password
  | none => redirectCheckPassword verify urls urlData password

/-- redirectUrl: look the row up by short code (404 when absent), answer
410 Gone when urls.expiry_time is in the past, then check the metadata
expiry, then the password, then count the click and redirect. -/
def redirectUrl (verify : String → String → Bool) (now : ℤ)
    (urls : List UrlRow) (metas : List MetaRow) (shortCode : String)
    (password : Option String) : RedirectResult × List UrlRow :=
  match singleRow (urls.filter (fun u => u.short_code == shortCode)) with
  | none => (RedirectResult.notFound, urls)
  | some urlData =>
    match urlData.expiry_time with
    | some t =>
      if now > t then (RedirectResult.gone t, urls)
      else redirectAfterUrlExpiry verify now urls metas urlData password
    | none => redirectAfterUrlExpiry verify now urls metas urlData password

/-- The length the generation loop passes to nanoid on every attempt. -/
def nanoidLength : ℕ := 6

/-- The while(!isUnique) loop of shortenUrl / uploadFile: draw
nanoid(6), test existence, and loop on collision. existsCode is the
`.eq('short_code', shortCode).single()` probe; nanoid takes the attempt
index and the requested length. The loop has no retry bound in the code;
fuel makes the embedding total, and exhausting it yields none (the code
would still be looping). -/
def generateShortCode (existsCode : String → Bool)
    (nanoid : ℕ → ℕ → String) : ℕ → ℕ → Option String
  | 0, _ => none
  | fuel + 1, attempt =>
    let shortCode := nanoid attempt nanoidLength
    if existsCode shortCode then
      generateShortCode existsCode nanoid fuel (attempt + 1)
    else some shortCode

/-- First storage phase of trackUrlCreation: select the usage row for
(userId, currentMonth) — here just the observed counter value, none when
the row does not exist. -/
def trackUrlCreationRead (store : Option ℕ) : Option ℕ := store

/-- Second storage phase of trackUrlCreation: having observed `observed`
in the read phase, either update the row to observed + 1, or insert a
fresh row with counter 1. The insert hits UNIQUE(user_id, tracking_period)
when a row appeared meanwhile; the error is swallowed by the catch, so the
store is left as is. -/
def trackUrlCreationWrite (observed : Option ℕ) (store : Option ℕ) :
    Option ℕ :=
  match observed with
  | some n => some (n + 1)
  | none =>
    match store with
    | none => some 1
    | some m => some m

/-- Two increments for the same (user, period) run one after the other:
read, write, read, write. -/
def runSequentialIncrements (init : Option ℕ) : Option ℕ :=
  let s1 := trackUrlCreationWrite (trackUrlCreationRead init) init
  trackUrlCreationWrite (trackUrlCreationRead s1) s1

/-- Two increments for the same (user, period) interleaved as
read-read-write-write: both reads happen before either write commits. -/
def runInterleavedIncrements (init : Option ℕ) : Option ℕ :=
  let o1 := trackUrlCreationRead init
  let o2 := trackUrlCreationRead init
  let s1 := trackUrlCreationWrite o1 init
  trackUrlCreationWrite o2 s1

/-- Stated from the spec's words, for comparison: the "single atomic
upsert-and-increment at the storage layer" the claim describes — create
the row at 1 or add 1 to the existing counter, in one indivisible step. -/
def specAtomicUpsertIncrement (store : Option ℕ) : Option ℕ :=
  some (store.getD 0 + 1)

/-- A urls row as shortenUrl inserts it (the fields the metadata
compensation logic touches). -/
structure CreatedUrlRow where
  id : ℕ
  short_code : String
deriving DecidableEq

/-- The sanitized metadata shortenUrl writes to url_metadata. -/
structure SanitizedMetadata where
  isDownloadEnable : Bool
  isScreenshotEnable : Bool
  isChatbotEnable : Bool
  isInterestForm : Bool
  isFollowUp : Bool
  isExpireTime : Option ℤ
deriving DecidableEq

/-- url_metadata row as inserted by shortenUrl. -/
structure UrlMetadataRow where
  url_id : ℕ
  is_download_enable : Bool
  is_screenshot_enable : Bool
  is_chatbot_enable : Bool
  is_interest_form : Bool
  is_follow_up : Bool
  expire_time : Option ℤ
deriving DecidableEq

/-- Outcome of shortenUrl's persistence tail. -/
inductive ShortenPersistResult where
  | created (withMetadata : Bool)
  | metadataFailed
deriving DecidableEq

/-- Persistence tail of shortenUrl: insert the urls row; when sanitized
metadata was supplied, insert the url_metadata row, and if that insert
fails, delete the just-created urls row (delete matches by id) and answer
500 'Failed to save URL metadata'. metaInsertFails is the failure oracle
for the metadata insert. -/
def shortenUrlPersist (sanitized : Option SanitizedMetadata)
    (metaInsertFails : Bool) (newId : ℕ) (shortCode : String)
    (urls : List CreatedUrlRow) (metas : List UrlMetadataRow) :
    ShortenPersistResult × List CreatedUrlRow × List UrlMetadataRow :=
  let urls1 := urls ++ [CreatedUrlRow.mk newId shortCode]
  match sanitized with
  | none => (ShortenPersistResult.created false, urls1, metas)
  | some m =>
    if metaInsertFails then
      (ShortenPersistResult.metadataFailed,
        urls1.filter (fun u => !(u.id == newId)), metas)
    else
      (ShortenPersistResult.created true, urls1,
        metas ++ [UrlMetadataRow.mk newId m.isDownloadEnable
          m.isScreenshotEnable m.isChatbotEnable m.isInterestForm
          m.isFollowUp m.isExpireTime])

/-- The seeded plans of database/schema.sql (free 2, lite 10, pro 50,
enterprise unlimited), as concrete rows. -/
def plansSeed : List PlanRow :=
  [PlanRow.mk 1 "free" (some 2) 0 true,
   PlanRow.mk 2 "lite" (some 10) (999 / 100) true,
   PlanRow.mk 3 "pro" (some 50) (2999 / 100) true,
   PlanRow.mk 4 "enterprise" none (9999 / 100) true]

/-- Fresh database: seeded plans, nothing else. -/
def dbSeed : Db := Db.mk 10 [] plansSeed [] [] []

/-- Scenario for the one-active-subscription invariant: an enterprise
registration, then a lite purchase while the enterprise subscription is
still pending_payment, then the enterprise activation. -/
def dbAfterRegisterEnterprise : Db := (registerEnterprise "TechCorp" dbSeed).2

def dbAfterLitePurchase : Db := (purchasePlan 100 10 2 dbAfterRegisterEnterprise).2

def dbAfterActivate : Db :=
  (activateEnterpriseAccount 200 300 10 "PAY-REF-1" dbAfterLitePurchase).2

/-- Scenario for purchase: an enterprise-registered user (account still
pending_payment) with no subscription rows at all. -/
def dbPurchaseScenario : Db :=
  Db.mk 20 [UserRow.mk 5 none "enterprise" (some "Acme") "pending_payment"]
    plansSeed [] [] []

/-- Scenario for invoice payment: one already-paid invoice (41) and one
pending invoice (42) owned by user 7. -/
def dbInvoiceScenario : Db :=
  Db.mk 30 [UserRow.mk 7 none "enterprise" (some "Beta") "active"] plansSeed []
    [InvoiceRow.mk 41 7 "monthly_usage" 25 "paid" (some 1) (some "OLDREF") none,
     InvoiceRow.mk 42 7 "monthly_usage" 30 "pending" none none none] []

/-- Scenario for cancel: user 8 holds an active enterprise subscription,
user 9 an active lite subscription. -/
def dbCancelScenario : Db :=
  Db.mk 50
    [UserRow.mk 8 none "enterprise" (some "Gamma") "active",
     UserRow.mk 9 (some "u9@example.com") "individual" none "active"]
    plansSeed
    [SubscriptionRow.mk 45 8 4 "active" (some 5) none,
     SubscriptionRow.mk 46 9 2 "active" (some 6) none] [] []

/-- Scenario for redirect: a password-protected row whose expiry_time is
already past. -/
def urlRowExpired : UrlRow :=
  UrlRow.mk 1 "abc123" "https://example.com" 0 "standard" (some 50) true
    (some "salt:digest") none none

/-- Adding two whole-cent amounts gives a whole-cent amount. -/
theorem isCents_add {a b : ℚ} (ha : IsCents a) (hb : IsCents b) :
    IsCents (a + b) := by
  obtain ⟨k, hk⟩ := ha
  obtain ⟨l, hl⟩ := hb
  exact ⟨k + l, by rw [hk, hl]; push_cast; ring⟩

/-- A natural multiple of a whole-cent amount is a whole-cent amount. -/
theorem isCents_natCast_mul {x : ℚ} (n : ℕ) (hx : IsCents x) :
    IsCents ((n : ℚ) * x) := by
  obtain ⟨k, hk⟩ := hx
  exact ⟨n * k, by rw [hk]; push_cast; ring⟩

/-- Every rate in the feature rate map is a whole number of cents. -/
theorem featureRate_isCents (feature : String) : IsCents (featureRate feature) := by
  unfold featureRate
  split_ifs
  exacts [⟨50, by norm_num⟩, ⟨25, by norm_num⟩, ⟨30, by norm_num⟩,
    ⟨15, by norm_num⟩, ⟨40, by norm_num⟩, ⟨0, by norm_num⟩]

/-- The urls line item is a whole number of cents (rate 10 cents). -/
theorem urlCharge_isCents (u : UsageRecord) : IsCents (urlCharge u) :=
  ⟨10 * u.urls_created, by unfold urlCharge urlRate; push_cast; ring⟩

/-- The files line item is a whole number of cents (rate 5 cents). -/
theorem fileCharge_isCents (u : UsageRecord) : IsCents (fileCharge u) :=
  ⟨5 * u.files_uploaded, by unfold fileCharge fileRate; push_cast; ring⟩

/-- A sum of feature charges is a whole number of cents. -/
theorem featureSum_isCents (l : List (String × ℕ)) :
    IsCents ((l.map (fun p => (p.2 : ℚ) * featureRate p.1)).sum) := by
  induction l with
  | nil => exact ⟨0, by norm_num⟩
  | cons p l ih =>
    simp only [List.map_cons, List.sum_cons]
    exact isCents_add (isCents_natCast_mul p.2 (featureRate_isCents p.1)) ih

/-- The features line item is a whole number of cents. -/
theorem totalFeatureCharge_isCents (u : UsageRecord) :
    IsCents (totalFeatureCharge u) := featureSum_isCents u.features_used

/-- Rounding to cents commutes with adding a whole-cent amount. -/
theorem round2_centsAdd (k : ℤ) (s : ℚ) :
    round2 ((k : ℚ) / 100 + s) = (k : ℚ) / 100 + round2 s := by
  unfold round2
  have h1 : ((k : ℚ) / 100 + s) * 100 + 1 / 2 = (k : ℚ) + (s * 100 + 1 / 2) := by
    ring
  rw [h1, Int.floor_int_add]
  push_cast
  ring

/-- Rounding to cents fixes whole-cent amounts. -/
theorem round2_of_isCents {x : ℚ} (hx : IsCents x) : round2 x = x := by
  obtain ⟨k, hk⟩ := hx
  have h := round2_centsAdd k 0
  have h0 : round2 (0 : ℚ) = 0 := by
    unfold round2
    norm_num
  rw [add_zero, h0, add_zero] at h
  rw [hk, h]

/-- Rounding each feature charge changes nothing: they are whole cents. -/
theorem featureSum_round2 (l : List (String × ℕ)) :
    (l.map (fun p => round2 ((p.2 : ℚ) * featureRate p.1))).sum =
      (l.map (fun p => (p.2 : ℚ) * featureRate p.1)).sum := by
  induction l with
  | nil => simp
  | cons p l ih =>
    simp only [List.map_cons, List.sum_cons, ih]
    rw [round2_of_isCents (isCents_natCast_mul p.2 (featureRate_isCents p.1))]

/-- Claim C1, counterexample: the claim asserts the billing total "is not
the rounding of the raw (unrounded) sum", but at the concrete usage record
(1 url, half a GB of storage) the total produced by calculateMonthlyBill
and generateMonthlyInvoice is exactly the rounding of the raw sum 21/200
of the line items — the code computes parseFloat(totalAmount.toFixed(2))
of the raw sum, and rounding moves it from 0.105 to 0.11. -/
theorem C1_total_is_rounding_of_raw_sum :
    invoiceAmount (UsageRecord.mk 1 0 (2 ^ 29) []) =
      round2 (totalAmount (UsageRecord.mk 1 0 (2 ^ 29) [])) ∧
    totalAmount (UsageRecord.mk 1 0 (2 ^ 29) []) = 21 / 200 ∧
    invoiceAmount (UsageRecord.mk 1 0 (2 ^ 29) []) = 11 / 100 ∧
    (21 : ℚ) / 200 ≠ 11 / 100 := by
  have hraw : totalAmount (UsageRecord.mk 1 0 (2 ^ 29) []) = 21 / 200 := by
    unfold totalAmount urlCharge fileCharge storageCharge storageGB
      totalFeatureCharge urlRate fileRate storagePerGBRate
    norm_num
  refine ⟨rfl, hraw, ?_, by norm_num⟩
  unfold invoiceAmount
  rw [hraw]
  unfold round2
  rw [Rat.floor_def]
  norm_num

/-- Claim C1, as amended: for every usage record, the billing total of
calculateMonthlyBill / generateMonthlyInvoice is the single rounding of
the raw (unrounded) sum of the four line items; for this rate table that
value always coincides with the sum of the independently rounded line
items, because every line item except storage is an exact whole number of
cents. -/
theorem C1_total_equals_sum_of_rounded_line_items (u : UsageRecord) :
    invoiceAmount u = round2 (totalAmount u) ∧
    invoiceAmount u = specSumOfRoundedLineItems u := by
  refine ⟨rfl, ?_⟩
  obtain ⟨k, hk⟩ := isCents_add
    (isCents_add (urlCharge_isCents u) (fileCharge_isCents u))
    (totalFeatureCharge_isCents u)
  have hTotal : totalAmount u = (k : ℚ) / 100 + storageCharge u := by
    unfold totalAmount
    rw [← hk]
    ring
  have h2 : invoiceAmount u = (k : ℚ) / 100 + round2 (storageCharge u) := by
    unfold invoiceAmount
    rw [hTotal, round2_centsAdd]
  rw [h2]
  unfold specSumOfRoundedLineItems
  rw [round2_of_isCents (urlCharge_isCents u),
    round2_of_isCents (fileCharge_isCents u), featureSum_round2]
  have hk2 : urlCharge u + fileCharge u + totalFeatureCharge u = (k : ℚ) / 100 := hk
  unfold totalFeatureCharge at hk2
  linarith [hk2]

/-- freePlan.url_limit || 2 is the limit itself when positive. -/
theorem freeLimitOf_some {L : ℕ} (hL : 0 < L) : freeLimitOf (some L) = L := by
  cases L with
  | zero => exact absurd hL (lt_irrefl 0)
  | succ k => rfl

/-- checkQuotaAnon grants while the count is below the limit, reporting
the pre-insert count and remaining = limit - count. -/
theorem checkQuotaAnon_allowed {L c : ℕ} (hL : 0 < L) (h : c < L) :
    checkQuotaAnon 0 (some L) c =
      QuotaDecision.allowed 0 (QuotaUsage.mk c L ((L : ℤ) - (c : ℤ))) := by
  unfold checkQuotaAnon
  rw [freeLimitOf_some hL, if_neg (by omega)]

/-- checkQuotaAnon denies with quota_exceeded once the count reaches the
limit. -/
theorem checkQuotaAnon_denied {L c : ℕ} (hL : 0 < L) (h : L ≤ c) :
    checkQuotaAnon 0 (some L) c =
      QuotaDecision.denied "quota_exceeded" (QuotaUsage.mk c L 0) := by
  unfold checkQuotaAnon
  rw [freeLimitOf_some hL, if_pos (by omega)]

/-- A granted shorten attempt answers 201 with checkQuota's snapshot and
inserts the row. -/
theorem shortenAnonAttempt_allowed {L c : ℕ} (hL : 0 < L) (h : c < L) :
    shortenAnonAttempt (some L) c =
      (ShortenOutcome.created 201 (QuotaUsage.mk c L ((L : ℤ) - (c : ℤ))),
        c + 1) := by
  unfold shortenAnonAttempt
  rw [checkQuotaAnon_allowed hL h]

/-- A denied shorten attempt answers 403 quota_exceeded and inserts
nothing. -/
theorem shortenAnonAttempt_denied {L c : ℕ} (hL : 0 < L) (h : L ≤ c) :
    shortenAnonAttempt (some L) c =
      (ShortenOutcome.forbidden 403 "quota_exceeded" (QuotaUsage.mk c L 0),
        c) := by
  unfold shortenAnonAttempt
  rw [checkQuotaAnon_denied hL h]

/-- After k attempts from a fresh IP the owned count is min k limit. -/
theorem countAfterAttempts_eq_min {L : ℕ} (hL : 0 < L) (k : ℕ) :
    countAfterAttempts (some L) k = min k L := by
  induction k with
  | zero => simp [countAfterAttempts]
  | succ k ih =>
    unfold countAfterAttempts
    rw [ih]
    by_cases h : min k L < L
    · rw [shortenAnonAttempt_allowed hL h]
      simp
      omega
    · have hm : min k L = L := by omega
      rw [hm, shortenAnonAttempt_denied hL (le_refl L)]
      simp
      omega

/-- Claim C2, counterexample: with free limit 2 and no prior resources,
the first creation succeeds but its response carries the pre-insert
snapshot remaining = 2, not remaining = 1 as the claim states. -/
theorem C2_first_creation_reports_remaining_two :
    nthAttemptOutcome (some 2) 1 =
      ShortenOutcome.created 201 (QuotaUsage.mk 0 2 2) ∧
    (QuotaUsage.mk 0 2 2).remaining ≠ 1 := by
  decide

/-- Claim C2, as amended: for an anonymous IP with positive free limit L,
the Nth creation succeeds iff N ≤ L; a successful Nth creation reports
the pre-insert snapshot used = N-1, remaining = L-(N-1) (so the first
reports remaining = 2 when L = 2, the second remaining = 1); every
attempt beyond the limit is denied 403 with reason quota_exceeded and
remaining 0. -/
theorem C2_nth_creation_succeeds_iff_within_limit (L N : ℕ) (hL : 0 < L)
    (hN : 1 ≤ N) :
    ((∃ q, nthAttemptOutcome (some L) N = ShortenOutcome.created 201 q) ↔
      N ≤ L) ∧
    (N ≤ L → nthAttemptOutcome (some L) N =
      ShortenOutcome.created 201
        (QuotaUsage.mk (N - 1) L ((L : ℤ) - ((N - 1 : ℕ) : ℤ)))) ∧
    (L < N → nthAttemptOutcome (some L) N =
      ShortenOutcome.forbidden 403 "quota_exceeded" (QuotaUsage.mk L L 0)) := by
  have hsucc : N ≤ L → nthAttemptOutcome (some L) N =
      ShortenOutcome.created 201
        (QuotaUsage.mk (N - 1) L ((L : ℤ) - ((N - 1 : ℕ) : ℤ))) := by
    intro h
    unfold nthAttemptOutcome
    rw [countAfterAttempts_eq_min hL]
    have hmin : min (N - 1) L = N - 1 := by omega
    rw [hmin, shortenAnonAttempt_allowed hL (by omega)]
  have hfail : L < N → nthAttemptOutcome (some L) N =
      ShortenOutcome.forbidden 403 "quota_exceeded" (QuotaUsage.mk L L 0) := by
    intro h
    unfold nthAttemptOutcome
    rw [countAfterAttempts_eq_min hL]
    have hmin : min (N - 1) L = L := by omega
    rw [hmin, shortenAnonAttempt_denied hL (le_refl L)]
  refine ⟨⟨?_, fun h => ⟨_, hsucc h⟩⟩, hsucc, hfail⟩
  rintro ⟨q, hq⟩
  by_contra hgt
  rw [hfail (by omega)] at hq
  exact ShortenOutcome.noConfusion hq

/-- Witness for C2: with free limit 2 the third creation attempt is denied
403 quota_exceeded with remaining 0. -/
theorem C2_third_creation_denied_witness :
    nthAttemptOutcome (some 2) 3 =
      ShortenOutcome.forbidden 403 "quota_exceeded" (QuotaUsage.mk 2 2 0) :=
  (C2_nth_creation_succeeds_iff_within_limit 2 3 (by decide) (by decide)).2.2
    (by decide)

/-- Claim C3, counterexample: purchasing the enterprise plan (id 4) with
no active subscription creates the new subscription with status active,
not pending_payment — the insert in purchasePlan uses status 'active'
unconditionally. -/
theorem C3_enterprise_purchase_created_active :
    (findPlan dbPurchaseScenario 4).map PlanRow.name = some "enterprise" ∧
    (purchasePlan 77 5 4 dbPurchaseScenario).1 =
      PurchaseResult.created
        (SubscriptionRow.mk 20 5 4 "active" (some 77) none) ∧
    "active" ≠ "pending_payment" :=
  ⟨rfl, rfl, by decide⟩

/-- Claim C3, as amended: purchase(plan) fails with Conflict when the user
already has an active subscription; otherwise it creates a new
subscription whose status is active for every plan, the enterprise plan
included. -/
theorem C3_purchase_conflict_or_active (now userId planId : ℕ) (db : Db)
    (plan : PlanRow) (hplan : findPlan db planId = some plan) :
    (∀ s, singleRow (activeSubsOf userId db) = some s →
      purchasePlan now userId planId db = (PurchaseResult.conflict, db)) ∧
    (singleRow (activeSubsOf userId db) = none →
      purchasePlan now userId planId db =
        (PurchaseResult.created
            (SubscriptionRow.mk db.nextId userId planId "active" (some now)
              none),
          Db.mk (db.nextId + 1) db.users db.plans
            (db.user_subscriptions ++
              [SubscriptionRow.mk db.nextId userId planId "active" (some now)
                none])
            db.enterprise_invoices db.usage_tracking)) := by
  constructor
  · intro s hs
    unfold purchasePlan
    rw [hplan, hs]
  · intro hs
    unfold purchasePlan
    rw [hplan, hs]

/-- Witness for C3: the concrete enterprise purchase evaluated through the
theorem. -/
theorem C3_purchase_witness :
    purchasePlan 77 5 4 dbPurchaseScenario =
      (PurchaseResult.created
          (SubscriptionRow.mk dbPurchaseScenario.nextId 5 4 "active" (some 77)
            none),
        Db.mk (dbPurchaseScenario.nextId + 1) dbPurchaseScenario.users
          dbPurchaseScenario.plans
          (dbPurchaseScenario.user_subscriptions ++
            [SubscriptionRow.mk dbPurchaseScenario.nextId 5 4 "active"
              (some 77) none])
          dbPurchaseScenario.enterprise_invoices
          dbPurchaseScenario.usage_tracking) :=
  (C3_purchase_conflict_or_active 77 5 4 dbPurchaseScenario
    (PlanRow.mk 4 "enterprise" none (9999 / 100) true) rfl).2 rfl

/-- Claim C4: the sequence registerEnterprise, purchasePlan(lite),
activateEnterpriseAccount leaves user 10 with two subscription rows in
status active — activateEnterpriseAccount promotes every pending_payment
row without checking for an existing active one, violating the at most
one active subscription invariant. -/
theorem C4_activate_breaks_single_active_invariant :
    (registerEnterprise "TechCorp" dbSeed).1 =
      RegisterEnterpriseResult.createdEnterprise 10 ∧
    (purchasePlan 100 10 2 dbAfterRegisterEnterprise).1 =
      PurchaseResult.created
        (SubscriptionRow.mk 13 10 2 "active" (some 100) none) ∧
    (activateEnterpriseAccount 200 300 10 "PAY-REF-1" dbAfterLitePurchase).1 =
      ActivateResult.activated ∧
    (activeSubsOf 10 dbAfterActivate).length = 2 :=
  ⟨rfl, rfl, rfl, by decide⟩

/-- Claim C5, counterexample: markInvoicePaid on the already-paid invoice
41 answers with the alreadyPaid outcome, sent as HTTP 400 Bad Request,
not 409 Conflict as the claim states. -/
theorem C5_already_paid_returns_400 :
    (markInvoicePaid 99 7 41 (some "NEWREF") none dbInvoiceScenario).1 =
      PayResult.alreadyPaid ∧
    payStatusCode PayResult.alreadyPaid = 400 ∧ (400 : ℕ) ≠ 409 :=
  ⟨rfl, rfl, by decide⟩

/-- Claim C5, as amended: markPaid on a pending invoice transitions it to
paid and records paymentDate and paymentReference; markPaid on an invoice
already paid fails, but with HTTP 400 Bad Request rather than 409
Conflict, leaving the database unchanged. -/
theorem C5_markPaid_transitions (now userId invoiceId : ℕ) (ref : String)
    (method : Option String) (db : Db) (invoice : InvoiceRow)
    (hfind : singleRow (db.enterprise_invoices.filter
      (fun i => i.id == invoiceId && i.user_id == userId)) = some invoice) :
    (invoice.status = "paid" →
      markInvoicePaid now userId invoiceId (some ref) method db =
        (PayResult.alreadyPaid, db)) ∧
    (invoice.status = "pending" →
      (markInvoicePaid now userId invoiceId (some ref) method db).1 =
        PayResult.paid ∧
      ∀ i ∈ (markInvoicePaid now userId invoiceId (some ref) method
          db).2.enterprise_invoices,
        i.id = invoiceId →
          i.status = "paid" ∧ i.payment_date = some now ∧
          i.payment_reference = some ref) := by
  have hne : invoice.status = "pending" → (invoice.status == "paid") = false := by
    intro hpending
    simp [hpending]
  constructor
  · intro hpaid
    simp only [markInvoicePaid, hfind]
    rw [if_pos (by simp [hpaid])]
  · intro hpending
    have hres : markInvoicePaid now userId invoiceId (some ref) method db =
        (PayResult.paid,
          Db.mk db.nextId db.users db.plans db.user_subscriptions
            (db.enterprise_invoices.map (fun i =>
              if i.id == invoiceId then
                InvoiceRow.mk i.id i.user_id i.invoice_type i.amount "paid"
                  (some now) (some ref) method
              else i))
            db.usage_tracking) := by
      simp only [markInvoicePaid, hfind, hne hpending, Bool.false_eq_true,
        if_false]
    constructor
    · rw [hres]
    · intro i hi hid
      rw [hres] at hi
      simp only [List.mem_map] at hi
      obtain ⟨j, hj, hji⟩ := hi
      by_cases hjid : j.id = invoiceId
      · rw [← hji]
        simp [hjid]
      · rw [← hji] at hid
        simp [hjid] at hid

/-- Witness for C5: paying the concrete pending invoice 42 records the
payment fields. -/
theorem C5_markPaid_witness :
    (markInvoicePaid 99 7 42 (some "NEWREF") none dbInvoiceScenario).1 =
      PayResult.paid ∧
    ∀ i ∈ (markInvoicePaid 99 7 42 (some "NEWREF") none
        dbInvoiceScenario).2.enterprise_invoices,
      i.id = 42 →
        i.status = "paid" ∧ i.payment_date = some 99 ∧
        i.payment_reference = some "NEWREF" :=
  (C5_markPaid_transitions 99 7 42 "NEWREF" none dbInvoiceScenario
    (InvoiceRow.mk 42 7 "monthly_usage" 30 "pending" none none none) rfl).2 rfl

/-- Claim C6: cancel() on a user whose active subscription's plan is not
enterprise returns Forbidden and leaves the database unchanged; on a user
whose active subscription's plan is enterprise it sets the subscription
status to cancelled and records cancelledAt. -/
theorem C6_cancel_enterprise_only (now userId : ℕ) (db : Db)
    (sub : SubscriptionRow) (plan : PlanRow)
    (hsub : singleRow (activeSubsOf userId db) = some sub)
    (hplan : db.plans.find? (fun p => p.id == sub.plan_id) = some plan) :
    (plan.name ≠ "enterprise" →
      cancelSubscription now userId db = (CancelResult.forbidden, db)) ∧
    (plan.name = "enterprise" →
      (cancelSubscription now userId db).1 = CancelResult.cancelled ∧
      ∀ s ∈ (cancelSubscription now userId db).2.user_subscriptions,
        s.id = sub.id → s.status = "cancelled" ∧ s.cancelled_at = some now) := by
  constructor
  · intro hname
    have hne : (plan.name == "enterprise") = false := by
      simp [hname]
    simp only [cancelSubscription, hsub, hplan, hne, Bool.false_eq_true,
      if_false]
  · intro hname
    have hyes : (plan.name == "enterprise") = true := by
      simp [hname]
    have hres : cancelSubscription now userId db =
        (CancelResult.cancelled,
          Db.mk db.nextId db.users db.plans
            (db.user_subscriptions.map (fun s =>
              if s.id == sub.id then
                SubscriptionRow.mk s.id s.user_id s.plan_id "cancelled"
                  s.started_at (some now)
              else s))
            db.enterprise_invoices db.usage_tracking) := by
      simp only [cancelSubscription, hsub, hplan, hyes, if_true]
    constructor
    · rw [hres]
    · intro s hs hid
      rw [hres] at hs
      simp only [List.mem_map] at hs
      obtain ⟨j, hj, hji⟩ := hs
      by_cases hjid : j.id = sub.id
      · rw [← hji]
        simp [hjid]
      · rw [← hji] at hid
        simp [hjid] at hid

/-- Witness for C6: cancelling user 8's active enterprise subscription
(row 45) marks it cancelled and records cancelledAt. -/
theorem C6_cancel_witness :
    (cancelSubscription 123 8 dbCancelScenario).1 = CancelResult.cancelled ∧
    ∀ s ∈ (cancelSubscription 123 8 dbCancelScenario).2.user_subscriptions,
      s.id = 45 → s.status = "cancelled" ∧ s.cancelled_at = some 123 :=
  (C6_cancel_enterprise_only 123 8 dbCancelScenario
    (SubscriptionRow.mk 45 8 4 "active" (some 5) none)
    (PlanRow.mk 4 "enterprise" none (9999 / 100) true) rfl rfl).2 rfl

/-- Claim C7: accessing a resource whose expiry_time is in the past
answers 410 Gone for every supplied password value (correct, incorrect or
absent) and for every password verifier — the expiry gate precedes the
password gate, which is never reached. -/
theorem C7_expired_resource_gone (verify : String → String → Bool) (now : ℤ)
    (urls : List UrlRow) (metas : List MetaRow) (shortCode : String)
    (password : Option String) (r : UrlRow) (t : ℤ)
    (hfind : singleRow (urls.filter (fun u => u.short_code == shortCode)) =
      some r)
    (hexp : r.expiry_time = some t) (hpast : t < now) :
    redirectUrl verify now urls metas shortCode password =
      (RedirectResult.gone t, urls) := by
  simp only [redirectUrl, hfind, hexp]
  rw [if_pos hpast]

/-- Witness for C7: the expired password-protected row answers Gone even
when a password is supplied and the verifier rejects everything. -/
theorem C7_expired_gone_witness :
    redirectUrl (fun _ _ => false) 60 [urlRowExpired] [] "abc123" (some "pw") =
      (RedirectResult.gone 50, [urlRowExpired]) :=
  C7_expired_resource_gone (fun _ _ => false) 60 [urlRowExpired] [] "abc123"
    (some "pw") urlRowExpired 50 rfl rfl (by decide)

/-- Under an oracle that reports every generated 6-character candidate as
taken, the generation loop never produces a code, whatever the attempt
budget. -/
theorem generateShortCode_none_of_allTaken (existsCode : String → Bool)
    (nanoid : ℕ → ℕ → String)
    (h : ∀ j, existsCode (nanoid j nanoidLength) = true) :
    ∀ fuel attempt, generateShortCode existsCode nanoid fuel attempt = none := by
  intro fuel
  induction fuel with
  | zero => intro attempt; rfl
  | succ n ih =>
    intro attempt
    unfold generateShortCode
    simp only [h attempt, if_true]
    exact ih (attempt + 1)

/-- Claim C8, counterexample: under total collision the loop is still
empty-handed after 1000 and after 1000000 regeneration attempts — there
is no retry bound and no widening of the code space that would end the
looping. -/
theorem C8_million_attempts_no_code :
    generateShortCode (fun _ => true) (fun _ _ => "aaaaaa") 1000 0 = none ∧
    generateShortCode (fun _ => true) (fun _ _ => "aaaaaa") 1000000 0 = none :=
  ⟨generateShortCode_none_of_allTaken _ _ (fun _ => rfl) 1000 0,
   generateShortCode_none_of_allTaken _ _ (fun _ => rfl) 1000000 0⟩

/-- Claim C8, as amended: the code-generation loop regenerates 6-character
codes unboundedly — every attempt requests length nanoidLength = 6 and the
loop only stops when some candidate is free, so whenever every 6-character
candidate is taken it runs forever (returns none for every attempt
budget), instead of bounding retries and widening the code space. -/
theorem C8_loop_unbounded_fixed_length (existsCode : String → Bool)
    (nanoid : ℕ → ℕ → String)
    (h : ∀ j, existsCode (nanoid j nanoidLength) = true) (fuel attempt : ℕ) :
    generateShortCode existsCode nanoid fuel attempt = none :=
  generateShortCode_none_of_allTaken existsCode nanoid h fuel attempt

/-- Witness for C8: a concrete all-taken oracle keeps the loop running
past 500 attempts. -/
theorem C8_loop_witness :
    generateShortCode (fun _ => true) (fun _ _ => "bbbbbb") 500 3 = none :=
  C8_loop_unbounded_fixed_length (fun _ => true) (fun _ _ => "bbbbbb")
    (fun _ => rfl) 500 3

/-- Claim C9, counterexample: interleaving two trackUrlCreation increments
for the same (user, period) as read-read-write-write loses one update —
the stored counter ends at 1 where the atomic upsert-and-increment the
claim describes ends at 2. -/
theorem C9_interleaved_increments_lose_update :
    runInterleavedIncrements (some 0) = some 1 ∧
    specAtomicUpsertIncrement (specAtomicUpsertIncrement (some 0)) = some 2 ∧
    runInterleavedIncrements (some 0) ≠
      specAtomicUpsertIncrement (specAtomicUpsertIncrement (some 0)) := by
  decide

/-- Claim C9, as amended: each usage-meter increment is a separate read
phase (select the row) followed by a write phase (update to the read value
plus one, or insert a fresh row); run back-to-back two increments add 2,
but the read-read-write-write interleaving of two concurrent increments
adds only 1 — from a missing row it also ends at 1 because the second
insert hits the (user_id, tracking_period) uniqueness constraint and the
error is swallowed. -/
theorem C9_read_then_write_semantics (n : ℕ) :
    runSequentialIncrements (some n) = some (n + 2) ∧
    runInterleavedIncrements (some n) = some (n + 1) ∧
    runInterleavedIncrements none = some 1 ∧
    specAtomicUpsertIncrement (specAtomicUpsertIncrement (some n)) =
      some (n + 2) :=
  ⟨rfl, rfl, rfl, rfl⟩

/-- Claim C10: when sanitized metadata was supplied and the metadata
insert fails, shortenUrl deletes the just-created urls row and reports the
500 error, so no urls row with that id survives and no metadata row is
added; when the metadata insert succeeds, both the urls row and its
metadata row are persisted. -/
theorem C10_metadata_failure_rolls_back_url (sanitized : Option SanitizedMetadata)
    (m : SanitizedMetadata) (metaInsertFails : Bool) (newId : ℕ)
    (shortCode : String) (urls : List CreatedUrlRow)
    (metas : List UrlMetadataRow) (hm : sanitized = some m) :
    (metaInsertFails = true →
      (shortenUrlPersist sanitized metaInsertFails newId shortCode urls
          metas).1 = ShortenPersistResult.metadataFailed ∧
      (∀ u ∈ (shortenUrlPersist sanitized metaInsertFails newId shortCode urls
          metas).2.1, u.id ≠ newId) ∧
      (shortenUrlPersist sanitized metaInsertFails newId shortCode urls
          metas).2.2 = metas) ∧
    (metaInsertFails = false →
      (shortenUrlPersist sanitized metaInsertFails newId shortCode urls
          metas).1 = ShortenPersistResult.created true ∧
      CreatedUrlRow.mk newId shortCode ∈
        (shortenUrlPersist sanitized metaInsertFails newId shortCode urls
          metas).2.1 ∧
      ∃ mr ∈ (shortenUrlPersist sanitized metaInsertFails newId shortCode urls
          metas).2.2, mr.url_id = newId) := by
  subst hm
  constructor
  · intro hfail
    subst hfail
    refine ⟨rfl, ?_, rfl⟩
    intro u hu
    simp only [shortenUrlPersist, if_true, List.mem_filter] at hu
    intro hid
    simp [hid] at hu
  · intro hok
    subst hok
    refine ⟨rfl, ?_, ?_⟩
    · simp [shortenUrlPersist]
    · exact ⟨UrlMetadataRow.mk newId m.isDownloadEnable m.isScreenshotEnable
        m.isChatbotEnable m.isInterestForm m.isFollowUp m.isExpireTime,
        by simp [shortenUrlPersist], rfl⟩

/-- Witness for C10: a failing metadata insert at a concrete input leaves
no urls row with the new id and no metadata row. -/
theorem C10_metadata_rollback_witness :
    (shortenUrlPersist
        (some (SanitizedMetadata.mk true false true false false none))
        true 9 "zzz999" [] []).1 = ShortenPersistResult.metadataFailed ∧
    (∀ u ∈ (shortenUrlPersist
        (some (SanitizedMetadata.mk true false true false false none))
        true 9 "zzz999" [] []).2.1, u.id ≠ 9) ∧
    (shortenUrlPersist
        (some (SanitizedMetadata.mk true false true false false none))
        true 9 "zzz999" [] []).2.2 = [] :=
  (C10_metadata_failure_rolls_back_url
    (some (SanitizedMetadata.mk true false true false false none))
    (SanitizedMetadata.mk true false true false false none) true 9 "zzz999"
    [] [] rfl).1 rfl
